/-
  Verification of the LVM volume lifecycle manager
  (pkg/hostpath/lvm.go of justinsb/csi-driver-host-path).

  Shallow embedding: external process invocations (/sbin/lvs, /sbin/lvcreate,
  /sbin/lvremove, /sbin/mkfs.ext4, /bin/mount, /bin/umount) are modelled as
  inputs describing the outcome the operating system reported for that
  invocation (exit status, captured stderr, and — for the lvs query — the
  result of JSON-decoding the captured stdout).  The control flow of each Go
  function is translated statement by statement.  A trace of which binaries
  were invoked, in order, is accumulated in a state monad so that ordering
  properties ("unmount before remove") are provable.
-/
import Mathlib

namespace LVMSpec

/-- `strings.Contains(s, sub)` of Go: `sub` occurs as a contiguous substring
of `s`. -/
def goContains (s sub : String) : Bool :=
  decide (sub.data <:+: s.data)

/-- `strings.HasSuffix(s, suffix)` of Go. -/
def goHasSuffix (s sfx : String) : Bool :=
  decide (sfx.data <:+ s.data)

/-- `strings.TrimSuffix(s, sfx)` of Go: drop the suffix when present. -/
def goTrimSuffix (s sfx : String) : String :=
  if goHasSuffix s sfx then
    String.mk (s.data.take (s.data.length - sfx.data.length))
  else s

/-- Value of a list of decimal digit characters, most significant first. -/
def natOfDigits (ds : List Char) : Nat :=
  ds.foldl (fun a c => 10 * a + (c.toNat - 48)) 0

/-- `strconv.ParseInt(s, 10, 64)` of Go: an optional single sign, then one or
more ASCII decimal digits; the value must fit in a signed 64-bit integer.
`none` models a non-nil error (syntax or range). -/
def goParseInt64 (s : String) : Option Int :=
  match s.data with
  | [] => none
  | c :: rest =>
      let neg : Bool := c = '-'
      let ds := if c = '-' ∨ c = '+' then rest else c :: rest
      if ds = [] then none
      else if ds.all Char.isDigit then
        let v : Int := if neg then -(natOfDigits ds : Int) else (natOfDigits ds : Int)
        if v < -(2 ^ 63) ∨ 2 ^ 63 - 1 < v then none else some v
      else none

/-- One entry of the `lv` array in the JSON report of `lvs`
(struct `reportLV` in the source). -/
structure reportLV where
  lv_name : String
  lv_size : String
  lv_tags : String
  deriving DecidableEq, Repr

/-- One report section (struct `report` in the source). -/
structure report where
  lv : List reportLV
  deriving DecidableEq, Repr

/-- The top-level JSON document of `lvs --reportformat=json`
(struct `reportWrapper` in the source). -/
structure reportWrapper where
  reports : List report
  deriving DecidableEq, Repr

/-- Struct `LVM` of the source: volume group and thin pool names. -/
structure LVM where
  vg : String
  thinpool : String
  deriving DecidableEq, Repr

/-- Struct `LVMVolume` of the source: mount path plus the LV record. -/
structure LVMVolume where
  volumePath : String
  info : reportLV
  deriving DecidableEq, Repr

/-- The binaries the manager invokes; used to record the invocation trace. -/
inductive Binary where
  | lvs | lvcreate | lvremove | mkfs | mount | umount
  deriving DecidableEq, Repr

/-- Outcome of `cmd.Run()` for one invocation: success (exit 0), an
`exec.ExitError` carrying the exit code, or some other (non-exit) error. -/
inductive RunResult where
  | success
  | exitError (code : Int)
  | otherError
  deriving DecidableEq, Repr

/-- The externally observed result of one `/sbin/lvs` invocation.
`stdoutParse` is the result of `json.Unmarshal` applied to the captured
stdout bytes: `none` models a decoding error (in particular, empty stdout
fails to decode as JSON). -/
structure LVSResult where
  run : RunResult
  stderr : String
  stdoutParse : Option reportWrapper
  deriving DecidableEq, Repr

/-- The externally observed result of an invocation whose stdout is not
decoded (lvcreate, lvremove, mkfs.ext4, mount, umount). -/
structure CmdResult where
  run : RunResult
  stderr : String
  deriving DecidableEq, Repr

/-- Inputs consumed by `ensureMountLV`: whether `os.MkdirAll` failed, and the
result of the `/bin/mount` invocation. -/
structure MountInputs where
  mkdirErr : Bool
  mount : CmdResult
  deriving DecidableEq, Repr

/-- The distinct error returns of the Go source, one constructor per
`fmt.Errorf` site (wrapping sites carry the wrapped error). -/
inductive Err where
  /-- "error running command ..." for the named binary. -/
  | cmdFailed (b : Binary)
  /-- "error parsing output from command ..." (json.Unmarshal failed). -/
  | unmarshalError
  /-- "... got %d reports, expected exactly 1". -/
  | reportCountError (n : Nat)
  /-- "unexpectedly found multiple logical volumes, found %d". -/
  | multipleLVs (n : Nat)
  /-- "cannot parse size %q (unknown suffix)". -/
  | sizeSuffixError
  /-- "error parsing size %q: %w" (strconv.ParseInt failed). -/
  | sizeParseError
  /-- "error creating mount directory %q: %w". -/
  | mkdirError
  /-- "error formatting volume: %w". -/
  | formatVolume (inner : Err)
  /-- "error getting lv info for newly created volume: %w". -/
  | lvInfoForNewVolume (inner : Err)
  /-- "could not find LV info for newly created volume %q". -/
  | lvNotFoundAfterCreate (lvName : String)
  deriving DecidableEq, Repr

/-- The effect monad of the embedding: error propagation as in Go's
`if err != nil { return ..., err }`, plus the trace of invoked binaries. -/
abbrev M := ExceptT Err (StateM (List Binary))

/-- Record that the named binary was invoked (the point where the Go code
calls `c.Run()`). -/
def invoke (b : Binary) : M Unit :=
  ExceptT.lift (modify (fun t => t ++ [b]))

/-- Run an embedded computation with an empty trace, returning the result and
the ordered list of binaries invoked. -/
def runM {α : Type} (m : M α) : Except Err α × List Binary :=
  Id.run (m.run.run [])

/-- `(*LVMVolume).VolumeSizeBytes` of the source: strip a `B` or `b` suffix
and parse the rest as a base-10 signed 64-bit integer. -/
def VolumeSizeBytes (r : LVMVolume) : Except Err Int :=
  let s := r.info.lv_size
  if goHasSuffix s "B" then
    match goParseInt64 (goTrimSuffix s "B") with
    | some n => .ok (n * 1)
    | none => .error .sizeParseError
  else if goHasSuffix s "b" then
    match goParseInt64 (goTrimSuffix s "b") with
    | some n => .ok (n * 1)
    | none => .error .sizeParseError
  else .error .sizeSuffixError

/-- `runLVSReport` of the source: invoke `/sbin/lvs` (with `volumeName` as a
positional filter when non-empty), classify a non-zero exit as a benign
not-found only when the exit code is 5, the captured stderr contains
"Failed to find logical volume", and a name filter was supplied; then decode
stdout and require exactly one report section. -/
def runLVSReport (volumeName : String) (res : LVSResult) : M report := do
  invoke .lvs
  match res.run with
  | .success => pure ()
  | runErr =>
      let isNotFound : Bool :=
        match runErr with
        | .exitError exitCode =>
            exitCode == 5 && goContains res.stderr "Failed to find logical volume"
        | _ => false
      -- "but we only get this error when we specify a non-existent LV"
      let isNotFound : Bool := if volumeName = "" then false else isNotFound
      if isNotFound then pure () else throw (Err.cmdFailed .lvs)
  match res.stdoutParse with
  | none => throw Err.unmarshalError
  | some w =>
      if h : w.reports.length = 1 then
        pure (w.reports.head (by intro hnil; simp [hnil] at h))
      else
        throw (Err.reportCountError w.reports.length)

/-- `findLVInfo` of the source: query by `vgName/lvName`; more than one
matching LV is an invariant violation, zero is the not-found outcome `none`. -/
def findLVInfo (vgName lvName : String) (res : LVSResult) : M (Option reportLV) := do
  let rep ← runLVSReport (vgName ++ "/" ++ lvName) res
  if rep.lv.length > 1 then
    throw (Err.multipleLVs rep.lv.length)
  else
    match rep.lv with
    | [] => pure none
    | lvRec :: _ => pure (some lvRec)

/-- `ensureMountLV` of the source: create the mount directory, then invoke
`/bin/mount --make-shared -t ext4`; exit code 32 with a stderr containing
"already mounted on" is absorbed as idempotent success. -/
def ensureMountLV (vgName lvName mountPath : String) (w : MountInputs) : M Unit := do
  if w.mkdirErr then throw Err.mkdirError
  invoke .mount
  match w.mount.run with
  | .success => pure ()
  | runErr =>
      let isAlreadyMounted : Bool :=
        match runErr with
        | .exitError exitCode =>
            exitCode == 32 && goContains w.mount.stderr "already mounted on"
        | _ => false
      if isAlreadyMounted then pure () else throw (Err.cmdFailed .mount)

/-- `ensureUnmountLV` of the source: invoke `/bin/umount mountPath`; any
failure of the invocation is an error (no benign classification). -/
def ensureUnmountLV (vgName lvName mountPath : String) (w : CmdResult) : M Unit := do
  invoke .umount
  match w.run with
  | .success => pure ()
  | _ => throw (Err.cmdFailed .umount)

/-- `mkfsExt4` of the source: invoke `/sbin/mkfs.ext4 -L lvName` on the LV
device; any failure is an error. -/
def mkfsExt4 (vgName lvName : String) (w : CmdResult) : M Unit := do
  invoke .mkfs
  match w.run with
  | .success => pure ()
  | _ => throw (Err.cmdFailed .mkfs)

/-- `(*LVM).findVolumeByLVName` of the source: look up the LV record
(`none` stays the not-found outcome), build the handle with the deterministic
mount path, and ensure the mount. -/
def findVolumeByLVName (l : LVM) (lvName : String)
    (lvsRes : LVSResult) (mnt : MountInputs) : M (Option LVMVolume) := do
  let info ← findLVInfo l.vg lvName lvsRes
  match info with
  | none => pure none
  | some info =>
      let volumePath := "/volumes/" ++ l.vg ++ "/" ++ lvName
      let vol : LVMVolume := { volumePath := volumePath, info := info }
      ensureMountLV l.vg vol.info.lv_name volumePath mnt
      pure (some vol)

/-- `(*LVM).findVolumeByVolumeID` of the source: the volume ID is the LV name. -/
def findVolumeByVolumeID (l : LVM) (volumeID : String)
    (lvsRes : LVSResult) (mnt : MountInputs) : M (Option LVMVolume) :=
  let lvName := volumeID
  findVolumeByLVName l lvName lvsRes mnt

/-- The external invocation results consumed by one `createThinLV` call:
the `/sbin/lvcreate` invocation, the `/sbin/mkfs.ext4` invocation, and the
follow-on query and mount performed by `findVolumeByLVName`. -/
structure CreateInputs where
  create : CmdResult
  mkfs : CmdResult
  lvsRes : LVSResult
  mnt : MountInputs
  deriving DecidableEq, Repr

/-- `(*LVM).createThinLV` of the source: invoke `/sbin/lvcreate`, then format
with `mkfsExt4` (wrapping its error), then re-query by name via
`findVolumeByLVName` (wrapping its error); a successful query that finds
nothing is the distinct consistency error `lvNotFoundAfterCreate`. -/
def createThinLV (l : LVM) (lvName size : String) (tags : List String)
    (w : CreateInputs) : M LVMVolume := do
  invoke .lvcreate
  match w.create.run with
  | .success => pure ()
  | _ => throw (Err.cmdFailed .lvcreate)
  try
    mkfsExt4 l.vg lvName w.mkfs
  catch e =>
    throw (Err.formatVolume e)
  let lv ←
    try
      findVolumeByLVName l lvName w.lvsRes w.mnt
    catch e =>
      throw (Err.lvInfoForNewVolume e)
  match lv with
  | none => throw (Err.lvNotFoundAfterCreate lvName)
  | some lv => pure lv

/-- `(*LVM).deleteLV` of the source: ensure the unmount, returning its error
if it fails, then invoke `/sbin/lvremove --yes`. -/
def deleteLV (l : LVM) (volume : LVMVolume) (umountRes removeRes : CmdResult) :
    M Unit := do
  ensureUnmountLV l.vg volume.info.lv_name volume.volumePath umountRes
  invoke .lvremove
  match removeRes.run with
  | .success => pure ()
  | _ => throw (Err.cmdFailed .lvremove)

/-! ### Example fixtures used in witness statements -/

/-- An example manager configuration. -/
def lvmEx : LVM := { vg := "pool", thinpool := "thinpool" }

/-- An example LV record as reported by the backing store. -/
def lvRecEx : reportLV :=
  { lv_name := "vol1", lv_size := "1073741824B", lv_tags := "owner=team-a" }

/-- An example volume handle. -/
def volEx : LVMVolume := { volumePath := "/volumes/pool/vol1", info := lvRecEx }

/-- A successful invocation result. -/
def cmdOk : CmdResult := { run := .success, stderr := "" }

/-! ### Claim theorems -/

/-- C2: if the format step fails after `/sbin/lvcreate` succeeded, the
operation returns the format error but never invokes `/sbin/lvremove`: the
freshly allocated LV is left behind (the `TODO: Delete the LV` comment in the
source acknowledges this).  The invocation trace of the failed create is
exactly `[lvcreate, mkfs]`, with no remove. -/
theorem c2_format_failure_leaves_lv :
    (runM (createThinLV lvmEx "vol1" "1073741824B" ["owner=team-a"]
      { create := { run := .success, stderr := "" },
        mkfs := { run := .exitError 1, stderr := "mke2fs: Device size reported to be zero." },
        lvsRes := { run := .success, stderr := "",
                    stdoutParse := some { reports := [{ lv := [lvRecEx] }] } },
        mnt := { mkdirErr := false, mount := cmdOk } })).1
      = Except.error (Err.formatVolume (Err.cmdFailed .mkfs)) ∧
    (runM (createThinLV lvmEx "vol1" "1073741824B" ["owner=team-a"]
      { create := { run := .success, stderr := "" },
        mkfs := { run := .exitError 1, stderr := "mke2fs: Device size reported to be zero." },
        lvsRes := { run := .success, stderr := "",
                    stdoutParse := some { reports := [{ lv := [lvRecEx] }] } },
        mnt := { mkdirErr := false, mount := cmdOk } })).2
      = [Binary.lvcreate, Binary.mkfs] ∧
    Binary.lvremove ∉ [Binary.lvcreate, Binary.mkfs] :=
  ⟨rfl, rfl, by decide⟩

/-- C3: `deleteLV` always invokes the unmount step first; the remove step is
invoked only after a successful unmount, and when the unmount invocation
fails, `/sbin/lvremove` is never invoked. -/
theorem c3_delete_unmounts_before_remove (l : LVM) (v : LVMVolume)
    (uRes rRes : CmdResult) :
    ((runM (deleteLV l v uRes rRes)).2 = [Binary.umount] ∨
     (runM (deleteLV l v uRes rRes)).2 = [Binary.umount, Binary.lvremove]) ∧
    (uRes.run ≠ RunResult.success →
      Binary.lvremove ∉ (runM (deleteLV l v uRes rRes)).2) := by
  obtain ⟨urun, usde⟩ := uRes
  obtain ⟨rrun, rsde⟩ := rRes
  cases urun with
  | success =>
      refine ⟨?_, fun h => absurd rfl h⟩
      cases rrun <;> exact Or.inr rfl
  | exitError code =>
      exact ⟨Or.inl rfl, fun _ => show Binary.lvremove ∉ [Binary.umount] by decide⟩
  | otherError =>
      exact ⟨Or.inl rfl, fun _ => show Binary.lvremove ∉ [Binary.umount] by decide⟩

/-- Witness for C3 at a concrete failing unmount: the remove binary is not
invoked. -/
theorem c3_witness :
    Binary.lvremove ∉ (runM (deleteLV lvmEx volEx
      { run := .exitError 1, stderr := "umount: /volumes/pool/vol1: target is busy." }
      cmdOk)).2 :=
  (c3_delete_unmounts_before_remove lvmEx volEx
    { run := .exitError 1, stderr := "umount: /volumes/pool/vol1: target is busy." }
    cmdOk).2 (by decide)

/-- C9: when `/bin/umount` reports that the target path is not mounted
(exit code 32), `deleteLV` returns the unmount execution error and never
reaches `/sbin/lvremove`, instead of proceeding to remove the LV: the code
has no benign classification for an already-absent mount. -/
theorem c9_delete_fails_on_absent_mount :
    runM (deleteLV lvmEx volEx
      { run := .exitError 32, stderr := "umount: /volumes/pool/vol1: not mounted." }
      cmdOk)
      = (Except.error (Err.cmdFailed .umount), [Binary.umount]) := rfl

/-- C4: when `/sbin/lvcreate` and `/sbin/mkfs.ext4` succeed but the follow-on
query by name returns zero matching records, `createThinLV` fails with the
distinct consistency error `lvNotFoundAfterCreate`, while the same query seen
through `findVolumeByLVName` is the ordinary nil (not-found, no error)
outcome. -/
theorem c4_post_create_empty_query_is_consistency_error
    (l : LVM) (lvName size : String) (tags : List String) (w : CreateInputs)
    (hc : w.create.run = .success) (hm : w.mkfs.run = .success)
    (hq : w.lvsRes.run = .success)
    (hp : w.lvsRes.stdoutParse = some { reports := [{ lv := [] }] }) :
    (runM (findVolumeByLVName l lvName w.lvsRes w.mnt)).1 = Except.ok none ∧
    (runM (createThinLV l lvName size tags w)).1
      = Except.error (Err.lvNotFoundAfterCreate lvName) := by
  obtain ⟨⟨crun, csde⟩, ⟨mrun, msde⟩, ⟨qrun, qsde, qpar⟩, ⟨mkd, ⟨mntrun, mntsde⟩⟩⟩ := w
  simp only at hc hm hq hp
  subst hc hm hq hp
  exact ⟨rfl, rfl⟩

/-- Witness for C4 at concrete inputs. -/
theorem c4_witness :
    (runM (createThinLV lvmEx "vol1" "1073741824B" ["owner=team-a"]
      { create := cmdOk, mkfs := cmdOk,
        lvsRes := { run := .success, stderr := "",
                    stdoutParse := some { reports := [{ lv := [] }] } },
        mnt := { mkdirErr := false, mount := cmdOk } })).1
      = Except.error (Err.lvNotFoundAfterCreate "vol1") :=
  (c4_post_create_empty_query_is_consistency_error lvmEx "vol1" "1073741824B"
    ["owner=team-a"]
    { create := cmdOk, mkfs := cmdOk,
      lvsRes := { run := .success, stderr := "",
                  stdoutParse := some { reports := [{ lv := [] }] } },
      mnt := { mkdirErr := false, mount := cmdOk } }
    rfl rfl rfl rfl).2

/-- C5: with a well-formed query response, zero matching records make
`findVolumeByVolumeID` return the not-found outcome (nil handle, no error),
while more than one matching record makes it fail with the `multipleLVs`
invariant-violation error instead of silently picking one. -/
theorem c5_findByID_notfound_and_duplicates
    (l : LVM) (volumeID : String) (res : LVSResult) (mnt : MountInputs)
    (r : report) (hrun : res.run = .success)
    (hp : res.stdoutParse = some { reports := [r] }) :
    (r.lv = [] →
      (runM (findVolumeByVolumeID l volumeID res mnt)).1 = Except.ok none) ∧
    (r.lv.length > 1 →
      (runM (findVolumeByVolumeID l volumeID res mnt)).1
        = Except.error (Err.multipleLVs r.lv.length)) := by
  obtain ⟨qrun, qsde, qpar⟩ := res
  simp only at hrun hp
  subst hrun hp
  obtain ⟨lvs⟩ := r
  constructor
  · intro h
    simp only at h
    subst h
    rfl
  · intro h
    simp only at h
    match lvs, h with
    | a :: b :: t, _ =>
      have h2 : 1 < (a :: b :: t).length := by
        simp only [List.length_cons]
        omega
      simp [runM, findVolumeByVolumeID, findVolumeByLVName, findLVInfo, runLVSReport,
        invoke, ExceptT.run_bind, Id.run, h2]

/-- Witness for C5 at concrete inputs: an empty query response yields the
nil not-found outcome. -/
theorem c5_witness :
    (runM (findVolumeByVolumeID lvmEx "vol1"
      { run := .success, stderr := "",
        stdoutParse := some { reports := [{ lv := [] }] } }
      { mkdirErr := false, mount := cmdOk })).1 = Except.ok none :=
  (c5_findByID_notfound_and_duplicates lvmEx "vol1"
    { run := .success, stderr := "",
      stdoutParse := some { reports := [{ lv := [] }] } }
    { mkdirErr := false, mount := cmdOk }
    { lv := [] } rfl rfl).1 rfl

/-- C8: a query response whose decoded document does not contain exactly one
report section fails with the report-count error; exactly one section with an
empty LV list is the valid empty result, not an error. -/
theorem c8_report_shape_guard (volumeName : String) (res : LVSResult)
    (w : reportWrapper) (hrun : res.run = .success)
    (hp : res.stdoutParse = some w) :
    (w.reports.length ≠ 1 →
      (runM (runLVSReport volumeName res)).1
        = Except.error (Err.reportCountError w.reports.length)) ∧
    (w.reports = [{ lv := [] }] →
      (runM (runLVSReport volumeName res)).1 = Except.ok { lv := [] }) := by
  obtain ⟨qrun, qsde, qpar⟩ := res
  simp only at hrun hp
  subst hrun hp
  obtain ⟨reps⟩ := w
  constructor
  · intro h
    simp only at h
    match reps, h with
    | [], _ => rfl
    | a :: b :: t, _ => rfl
  · intro h
    simp only at h
    subst h
    rfl

/-- Witness for C8 at concrete inputs: two report sections are rejected,
one empty section is accepted. -/
theorem c8_witness :
    (runM (runLVSReport "pool/vol1"
      { run := .success, stderr := "",
        stdoutParse := some { reports := [{ lv := [] }, { lv := [] }] } })).1
      = Except.error (Err.reportCountError 2) :=
  (c8_report_shape_guard "pool/vol1"
    { run := .success, stderr := "",
      stdoutParse := some { reports := [{ lv := [] }, { lv := [] }] } }
    { reports := [{ lv := [] }, { lv := [] }] } rfl rfl).1 (by decide)

/-- C10: even when the non-zero exit of the query is classified as the benign
not-found condition, stdout must still decode as a JSON document with exactly
one report section: a stdout that fails to decode (in particular an empty
one) yields the unmarshal error, and a decoded document with a section count
other than one yields the report-count error — never an empty result. -/
theorem c10_benign_notfound_still_requires_parse
    (volumeName : String) (res : LVSResult)
    (hrun : res.run = .exitError 5)
    (hsde : goContains res.stderr "Failed to find logical volume" = true)
    (hv : volumeName ≠ "") :
    (res.stdoutParse = none →
      (runM (runLVSReport volumeName res)).1 = Except.error Err.unmarshalError) ∧
    (∀ w : reportWrapper, res.stdoutParse = some w → w.reports.length ≠ 1 →
      (runM (runLVSReport volumeName res)).1
        = Except.error (Err.reportCountError w.reports.length)) := by
  obtain ⟨qrun, qsde, qpar⟩ := res
  simp only at hrun hsde ⊢
  subst hrun
  constructor
  · intro h
    subst h
    unfold runLVSReport
    rw [hsde]
    simp only [if_neg hv]
    rfl
  · intro w hw h
    subst hw
    obtain ⟨reps⟩ := w
    simp only at h
    unfold runLVSReport
    rw [hsde]
    simp only [if_neg hv]
    match reps, h with
    | [], _ => rfl
    | a :: b :: t, _ => rfl

/-- Witness for C10: benign not-found exit with empty (undecodable) stdout is
an unmarshal error. -/
theorem c10_witness :
    (runM (runLVSReport "pool/vol1"
      { run := .exitError 5,
        stderr := "  Failed to find logical volume \"pool/vol1\".",
        stdoutParse := none })).1 = Except.error Err.unmarshalError :=
  (c10_benign_notfound_still_requires_parse "pool/vol1"
    { run := .exitError 5,
      stderr := "  Failed to find logical volume \"pool/vol1\".",
      stdoutParse := none } rfl rfl (by decide)).1 rfl

/-- C1 counterexample: exit code 5 with a stderr that does mention
"volume not found" and a supplied name filter is nevertheless escalated to
the command execution error, because the source matches the substring
"Failed to find logical volume", not "volume not found". -/
theorem c1_counterexample :
    goContains "volume not found" "volume not found" = true ∧
    ("pool/vol1" : String) ≠ "" ∧
    (runM (runLVSReport "pool/vol1"
      { run := .exitError 5, stderr := "volume not found",
        stdoutParse := some { reports := [{ lv := [] }] } })).1
      = Except.error (Err.cmdFailed .lvs) :=
  ⟨rfl, by decide, rfl⟩

/-- C1 (amended): a non-zero exit of the query is classified as the benign
not-found outcome (not escalated to the execution error) exactly when the
exit code is 5, the captured stderr contains "Failed to find logical volume",
and a name filter was supplied; in that case a well-formed empty response
yields zero records, and with no name filter the same exit and stderr are
escalated to the execution error. -/
theorem c1_benign_notfound_classification (volumeName : String)
    (res : LVSResult) (exitCode : Int) (hrun : res.run = .exitError exitCode) :
    ((runM (runLVSReport volumeName res)).1 ≠ Except.error (Err.cmdFailed .lvs)
        ↔ (exitCode = 5 ∧
           goContains res.stderr "Failed to find logical volume" = true ∧
           volumeName ≠ "")) ∧
    (exitCode = 5 →
      goContains res.stderr "Failed to find logical volume" = true →
      volumeName ≠ "" →
      res.stdoutParse = some { reports := [{ lv := [] }] } →
      (runM (runLVSReport volumeName res)).1 = Except.ok { lv := [] }) := by
  obtain ⟨qrun, qsde, qpar⟩ := res
  simp only at hrun ⊢
  subst hrun
  by_cases hc : exitCode = 5
  · subst hc
    cases hcont : goContains qsde "Failed to find logical volume" with
    | true =>
        by_cases hv : volumeName = ""
        · subst hv
          have hres : (runM (runLVSReport ""
              { run := .exitError 5, stderr := qsde, stdoutParse := qpar })).1
              = Except.error (Err.cmdFailed .lvs) := by
            unfold runLVSReport
            simp only [hcont]
            rfl
          constructor
          · rw [hres]
            simp
          · intro _ _ hv' _
            exact absurd rfl hv'
        · constructor
          · constructor
            · intro _
              exact ⟨rfl, rfl, hv⟩
            · intro _
              cases hqp : qpar with
              | none =>
                  have hres : (runM (runLVSReport volumeName
                      { run := .exitError 5, stderr := qsde, stdoutParse := none })).1
                      = Except.error Err.unmarshalError := by
                    unfold runLVSReport
                    simp only [hcont, if_neg hv]
                    rfl
                  rw [hres]
                  simp
              | some w =>
                  obtain ⟨reps⟩ := w
                  match reps with
                  | [] =>
                      have hres : (runM (runLVSReport volumeName
                          { run := .exitError 5, stderr := qsde,
                            stdoutParse := some { reports := [] } })).1
                          = Except.error (Err.reportCountError 0) := by
                        unfold runLVSReport
                        simp only [hcont, if_neg hv]
                        rfl
                      rw [hres]
                      simp
                  | [r] =>
                      have hres : (runM (runLVSReport volumeName
                          { run := .exitError 5, stderr := qsde,
                            stdoutParse := some { reports := [r] } })).1
                          = Except.ok r := by
                        unfold runLVSReport
                        simp only [hcont, if_neg hv]
                        rfl
                      rw [hres]
                      simp
                  | a :: b :: t =>
                      have hres : (runM (runLVSReport volumeName
                          { run := .exitError 5, stderr := qsde,
                            stdoutParse := some { reports := a :: b :: t } })).1
                          = Except.error (Err.reportCountError (a :: b :: t).length) := by
                        unfold runLVSReport
                        simp only [hcont, if_neg hv]
                        rfl
                      rw [hres]
                      simp
          · intro _ _ _ hqp
            subst hqp
            unfold runLVSReport
            simp only [hcont, if_neg hv]
            rfl
    | false =>
        have hres : (runM (runLVSReport volumeName
            { run := .exitError 5, stderr := qsde, stdoutParse := qpar })).1
            = Except.error (Err.cmdFailed .lvs) := by
          unfold runLVSReport
          simp only [hcont, Bool.and_false, ite_self]
          rfl
        constructor
        · rw [hres]
          constructor
          · intro hne
            exact absurd rfl hne
          · rintro ⟨-, hcont', -⟩
            exact absurd hcont' (by decide)
        · intro _ hcont' _ _
          exact absurd hcont' (by decide)
  · have hbeq : (exitCode == 5) = false := by
      simp [hc]
    have hres : (runM (runLVSReport volumeName
        { run := .exitError exitCode, stderr := qsde, stdoutParse := qpar })).1
        = Except.error (Err.cmdFailed .lvs) := by
      unfold runLVSReport
      simp only [hbeq, Bool.false_and, ite_self]
      rfl
    constructor
    · rw [hres]
      constructor
      · intro hne
        exact absurd rfl hne
      · rintro ⟨hc', -, -⟩
        exact absurd hc' hc
    · intro hc' _ _ _
      exact absurd hc' hc

/-- Witness for the amended C1: a benign not-found exit with a well-formed
empty response yields zero records rather than an error. -/
theorem c1_witness :
    (runM (runLVSReport "pool/vol1"
      { run := .exitError 5,
        stderr := "  Failed to find logical volume \"pool/vol1\".",
        stdoutParse := some { reports := [{ lv := [] }] } })).1
      = Except.ok { lv := [] } :=
  (c1_benign_notfound_classification "pool/vol1"
    { run := .exitError 5,
      stderr := "  Failed to find logical volume \"pool/vol1\".",
      stdoutParse := some { reports := [{ lv := [] }] } }
    5 rfl).2 rfl rfl (by decide) rfl

/-- C7 counterexample: a mount failure with exit code 32 whose stderr does
mention "already mounted" is nevertheless an error for `ensureMountLV`,
because the source matches the longer substring "already mounted on". -/
theorem c7_counterexample :
    goContains "already mounted" "already mounted" = true ∧
    (runM (ensureMountLV "pool" "vol1" "/volumes/pool/vol1"
      { mkdirErr := false,
        mount := { run := .exitError 32, stderr := "already mounted" } })).1
      = Except.error (Err.cmdFailed .mount) :=
  ⟨rfl, rfl⟩

/-- C7 (amended): the mount-ensuring step is idempotent: when the mount
invocation fails with exit code 32 and a stderr that contains
"already mounted on", the step succeeds, and calling it twice in succession
on such an already-mounted path yields success both times. -/
theorem c7_already_mounted_is_idempotent_success
    (vgName lvName mountPath : String) (w : MountInputs)
    (hmk : w.mkdirErr = false) (hrun : w.mount.run = .exitError 32)
    (hsde : goContains w.mount.stderr "already mounted on" = true) :
    (runM (ensureMountLV vgName lvName mountPath w)).1 = Except.ok () ∧
    (runM (do
        ensureMountLV vgName lvName mountPath w
        ensureMountLV vgName lvName mountPath w)).1 = Except.ok () := by
  obtain ⟨mkd, ⟨mrun, msde⟩⟩ := w
  simp only at hmk hrun hsde
  subst hmk hrun
  constructor
  · unfold ensureMountLV
    simp only [hsde]
    rfl
  · unfold ensureMountLV
    simp only [hsde]
    rfl

/-- Witness for the amended C7: calling the mount-ensuring step twice on an
already-mounted path succeeds. -/
theorem c7_witness :
    (runM (do
        ensureMountLV "pool" "vol1" "/volumes/pool/vol1"
          { mkdirErr := false,
            mount := { run := .exitError 32,
                       stderr := "mount: /volumes/pool/vol1: /dev/pool/vol1 already mounted on /volumes/pool/vol1." } }
        ensureMountLV "pool" "vol1" "/volumes/pool/vol1"
          { mkdirErr := false,
            mount := { run := .exitError 32,
                       stderr := "mount: /volumes/pool/vol1: /dev/pool/vol1 already mounted on /volumes/pool/vol1." } })).1
      = Except.ok () :=
  (c7_already_mounted_is_idempotent_success "pool" "vol1" "/volumes/pool/vol1"
    { mkdirErr := false,
      mount := { run := .exitError 32,
                 stderr := "mount: /volumes/pool/vol1: /dev/pool/vol1 already mounted on /volumes/pool/vol1." } }
    rfl rfl rfl).2

/-! ### Helper lemmas about the Go string primitives -/

lemma goHasSuffix_append_same (ds : List Char) (c : Char) (sfx : String)
    (h : sfx.data = [c]) : goHasSuffix (String.mk (ds ++ [c])) sfx = true := by
  unfold goHasSuffix
  rw [h]
  exact decide_eq_true (List.suffix_append ds [c])

lemma goHasSuffix_append_ne (ds : List Char) (c c' : Char) (sfx : String)
    (h : sfx.data = [c']) (hne : c' ≠ c) :
    goHasSuffix (String.mk (ds ++ [c])) sfx = false := by
  unfold goHasSuffix
  rw [h]
  refine decide_eq_false (fun hsuf => hne ?_)
  obtain ⟨t, ht⟩ := hsuf
  have h1 : (t ++ [c']).getLast? = some c' := List.getLast?_concat t
  have h2 : (ds ++ [c]).getLast? = some c := List.getLast?_concat ds
  rw [ht, h2] at h1
  exact (Option.some.injEq _ _ ▸ h1).symm

lemma goTrimSuffix_append (ds : List Char) (c : Char) (sfx : String)
    (h : sfx.data = [c]) :
    goTrimSuffix (String.mk (ds ++ [c])) sfx = String.mk ds := by
  unfold goTrimSuffix
  rw [goHasSuffix_append_same ds c sfx h, h]
  simp only [if_true]
  have hlen : (ds ++ [c]).length - [c].length = ds.length := by
    simp [List.length_append]
  rw [hlen, List.take_left]

lemma natOfDigits_nonneg (ds : List Char) : (0 : Int) ≤ (natOfDigits ds : Int) :=
  Int.natCast_nonneg _

/-- A decimal digit character is neither a plus nor a minus sign. -/
lemma isDigit_ne_sign (c : Char) (h : c.isDigit = true) : ¬(c = '-' ∨ c = '+') := by
  rintro (rfl | rfl) <;> simp [Char.isDigit] at h

lemma goParseInt64_digits (ds : List Char) (hne : ds ≠ [])
    (hdig : ∀ c ∈ ds, c.isDigit = true) :
    goParseInt64 (String.mk ds) =
      if (natOfDigits ds : Int) ≤ 2 ^ 63 - 1 then some ((natOfDigits ds : Int))
      else none := by
  match ds, hne with
  | c :: rest, _ =>
    have hcd : c.isDigit = true := hdig c (by simp)
    have hsign : ¬(c = '-' ∨ c = '+') := isDigit_ne_sign c hcd
    have hnegf : (decide (c = '-')) = false :=
      decide_eq_false (fun hc => hsign (Or.inl hc))
    have hall : (c :: rest).all Char.isDigit = true :=
      List.all_eq_true.mpr hdig
    have hge : (0 : Int) ≤ (natOfDigits (c :: rest) : Int) := natOfDigits_nonneg _
    unfold goParseInt64
    simp only [if_neg hsign, hnegf, hall, Bool.false_eq_true, if_false]
    simp only [if_neg (List.cons_ne_nil c rest), if_true]
    by_cases hr : (natOfDigits (c :: rest) : Int) ≤ 2 ^ 63 - 1
    · rw [if_pos hr, if_neg]
      push_neg
      exact ⟨by omega, hr⟩
    · rw [if_neg hr, if_pos]
      exact Or.inr (by omega)

lemma goParseInt64_bad_head (c : Char) (rest : List Char)
    (hd : c.isDigit = false) (hplus : c ≠ '+') (hminus : c ≠ '-') :
    goParseInt64 (String.mk (c :: rest)) = none := by
  have hsign : ¬(c = '-' ∨ c = '+') := by
    rintro (hc | hc) <;> [exact hminus hc; exact hplus hc]
  have hall : (c :: rest).all Char.isDigit = false := by
    rw [Bool.eq_false_iff]
    intro htrue
    have hct := List.all_eq_true.mp htrue c (by simp)
    simp [hd] at hct
  unfold goParseInt64
  simp only [if_neg hsign, hall]
  simp only [if_neg (List.cons_ne_nil c rest), Bool.false_eq_true, if_false]

lemma goParseInt64_bad_tail (c x : Char) (rest : List Char)
    (hx : x ∈ rest) (hd : x.isDigit = false) :
    goParseInt64 (String.mk (c :: rest)) = none := by
  have hallr : rest.all Char.isDigit = false := by
    rw [Bool.eq_false_iff]
    intro htrue
    have hxt := List.all_eq_true.mp htrue x hx
    simp [hd] at hxt
  have hallc : (c :: rest).all Char.isDigit = false := by
    simp [List.all_cons, hallr]
  have hrne : rest ≠ [] := by
    intro hcon
    rw [hcon] at hx
    exact absurd hx (List.not_mem_nil x)
  unfold goParseInt64
  by_cases hsign : c = '-' ∨ c = '+'
  · simp only [if_pos hsign, if_neg hrne, hallr]
    simp
  · simp only [if_neg hsign, hallc]
    simp only [if_neg (List.cons_ne_nil c rest), Bool.false_eq_true, if_false]

/-- C6: `VolumeSizeBytes` returns the integer unchanged for every size string
of the form `<digits>B` or `<digits>b` whose value fits in a signed 64-bit
integer; a value that overflows, a non-numeric prefix (a bad leading
character or a bad later character), or an empty prefix fails with the
size-parse error, and any string without a `B`/`b` suffix fails with the
unknown-suffix error.  Concretely, `"1073741824B"` parses to `1073741824`
and `"10G"` is rejected. -/
theorem c6_volume_size_parse (ds : List Char) (s : String) :
    (ds ≠ [] → (∀ c ∈ ds, c.isDigit = true) →
     (natOfDigits ds : Int) ≤ 2 ^ 63 - 1 →
      VolumeSizeBytes
          { volumePath := "",
            info := { lv_name := "", lv_size := String.mk (ds ++ ['B']), lv_tags := "" } }
          = Except.ok ((natOfDigits ds : Int)) ∧
      VolumeSizeBytes
          { volumePath := "",
            info := { lv_name := "", lv_size := String.mk (ds ++ ['b']), lv_tags := "" } }
          = Except.ok ((natOfDigits ds : Int))) ∧
    (ds ≠ [] → (∀ c ∈ ds, c.isDigit = true) →
     2 ^ 63 - 1 < (natOfDigits ds : Int) →
      VolumeSizeBytes
          { volumePath := "",
            info := { lv_name := "", lv_size := String.mk (ds ++ ['B']), lv_tags := "" } }
          = Except.error Err.sizeParseError) ∧
    (goHasSuffix s "B" = false → goHasSuffix s "b" = false →
      VolumeSizeBytes
          { volumePath := "",
            info := { lv_name := "", lv_size := s, lv_tags := "" } }
          = Except.error Err.sizeSuffixError) ∧
    (∀ c rest, ds = c :: rest → c.isDigit = false → c ≠ '+' → c ≠ '-' →
      VolumeSizeBytes
          { volumePath := "",
            info := { lv_name := "", lv_size := String.mk (ds ++ ['B']), lv_tags := "" } }
          = Except.error Err.sizeParseError) ∧
    (∀ c x rest, ds = c :: rest → x ∈ rest → x.isDigit = false →
      VolumeSizeBytes
          { volumePath := "",
            info := { lv_name := "", lv_size := String.mk (ds ++ ['B']), lv_tags := "" } }
          = Except.error Err.sizeParseError) ∧
    VolumeSizeBytes
        { volumePath := "",
          info := { lv_name := "", lv_size := "B", lv_tags := "" } }
        = Except.error Err.sizeParseError ∧
    VolumeSizeBytes
        { volumePath := "",
          info := { lv_name := "", lv_size := "10G", lv_tags := "" } }
        = Except.error Err.sizeSuffixError ∧
    VolumeSizeBytes
        { volumePath := "",
          info := { lv_name := "", lv_size := "1073741824B", lv_tags := "" } }
        = Except.ok 1073741824 := by
  refine ⟨?_, ?_, ?_, ?_, ?_, rfl, rfl, rfl⟩
  · intro hne hdig hr
    constructor
    · unfold VolumeSizeBytes
      simp only [goHasSuffix_append_same ds 'B' "B" rfl, if_true,
        goTrimSuffix_append ds 'B' "B" rfl, goParseInt64_digits ds hne hdig,
        if_pos hr]
      simp
    · unfold VolumeSizeBytes
      simp only [goHasSuffix_append_ne ds 'b' 'B' "B" rfl (by decide),
        Bool.false_eq_true, if_false,
        goHasSuffix_append_same ds 'b' "b" rfl, if_true,
        goTrimSuffix_append ds 'b' "b" rfl, goParseInt64_digits ds hne hdig,
        if_pos hr]
      simp
  · intro hne hdig hr
    unfold VolumeSizeBytes
    simp only [goHasSuffix_append_same ds 'B' "B" rfl, if_true,
      goTrimSuffix_append ds 'B' "B" rfl, goParseInt64_digits ds hne hdig,
      if_neg (not_le.mpr hr)]
  · intro h1 h2
    unfold VolumeSizeBytes
    simp only [h1, h2, Bool.false_eq_true, if_false]
  · intro c rest hds hd hplus hminus
    subst hds
    unfold VolumeSizeBytes
    simp only [goHasSuffix_append_same (c :: rest) 'B' "B" rfl, if_true,
      goTrimSuffix_append (c :: rest) 'B' "B" rfl,
      goParseInt64_bad_head c rest hd hplus hminus]
  · intro c x rest hds hx hd
    subst hds
    unfold VolumeSizeBytes
    simp only [goHasSuffix_append_same (c :: rest) 'B' "B" rfl, if_true,
      goTrimSuffix_append (c :: rest) 'B' "B" rfl,
      goParseInt64_bad_tail c x rest hx hd]

/-- Witness for C6: the digit string `42` with byte suffix parses to `42`. -/
theorem c6_witness :
    VolumeSizeBytes
        { volumePath := "",
          info := { lv_name := "",
                    lv_size := String.mk (['4', '2'] ++ ['B']),
                    lv_tags := "" } }
        = Except.ok ((natOfDigits ['4', '2'] : Int)) :=
  ((c6_volume_size_parse ['4', '2'] "10G").1 (by decide) (by decide) (by decide)).1

end LVMSpec
